import Mathlib

/-!
Shallow embedding of `python-packaging/src/interpreter.rs`: the typed
configuration model for initializing an embedded Python interpreter.
Rust `&str`/`String` values are modelled as Lean `String`, `Result<T, String>`
as `Except String T`, `Option<T>` as `Option T`, `Vec<T>` as `List T`,
`PathBuf`/`OsString` as `String`, and `c_ulong` as `Nat`.
-/

/-- Embeds Rust `str::strip_prefix` on character lists: `stripLead p cs`
returns `some rest` when `cs = p ++ rest`, and `none` when `p` does not
lead `cs`. -/
def stripLead : List Char → List Char → Option (List Char)
  | [], rest => some rest
  | _ :: _, [] => none
  | p :: ps, c :: cs => if p = c then stripLead ps cs else none

/-- Whether `hay` starts with `need` (character lists). -/
def startsList : List Char → List Char → Bool
  | [], _ => true
  | _ :: _, [] => false
  | n :: ns, h :: hs => n = h && startsList ns hs

/-- Whether `need` occurs as a contiguous substring of the second list. -/
def hasSub (need : List Char) : List Char → Bool
  | [] => startsList need []
  | c :: rest => startsList need (c :: rest) || hasSub need rest

/-- Whether a character list contains an uppercase letter. -/
def hasUpperChars : List Char → Bool
  | [] => false
  | c :: rest => c.isUpper || hasUpperChars rest

/-- Whether a string contains an uppercase letter. -/
def hasUpper (s : String) : Bool := hasUpperChars s.data

/-- Embeds `enum PythonInterpreterProfile` (interpreter.rs lines 19-29). -/
inductive PythonInterpreterProfile where
  | Isolated
  | Python
deriving DecidableEq

/-- Embeds `impl Default for PythonInterpreterProfile` (lines 31-35). -/
def PythonInterpreterProfile.default : PythonInterpreterProfile := .Isolated

/-- Embeds `impl ToString for PythonInterpreterProfile` (lines 37-45). -/
def PythonInterpreterProfile.toString : PythonInterpreterProfile → String
  | .Isolated => "isolated"
  | .Python => "python"

/-- Embeds `impl TryFrom<&str> for PythonInterpreterProfile` (lines 53-66). -/
def PythonInterpreterProfile.tryFrom (value : String) : Except String PythonInterpreterProfile :=
  if value = "isolated" then .ok .Isolated
  else if value = "python" then .ok .Python
  else .error (value ++ " is not a valid profile; use \x27isolated\x27 or \x27python\x27")

/-- Embeds `impl TryFrom<String> for PythonInterpreterProfile` (lines 68-74):
it delegates to the `&str` parser via `as_str()`. -/
def PythonInterpreterProfile.tryFromString (value : String) : Except String PythonInterpreterProfile :=
  PythonInterpreterProfile.tryFrom value

/-- Embeds `enum TerminfoResolution` (lines 80-87): `Static` carries an
arbitrary string payload. -/
inductive TerminfoResolution where
  | Dynamic
  | None
  | Static (value : String)
deriving DecidableEq

/-- Embeds `impl ToString for TerminfoResolution` (lines 89-97). -/
def TerminfoResolution.toString : TerminfoResolution → String
  | .Dynamic => "dynamic"
  | .None => "none"
  | .Static value => "static:" ++ value

/-- Embeds `impl TryFrom<&str> for TerminfoResolution` (lines 105-122):
`"dynamic"` and `"none"` match exactly; otherwise `strip_prefix("static:")`
is tried and its suffix becomes the `Static` payload. -/
def TerminfoResolution.tryFrom (value : String) : Except String TerminfoResolution :=
  if value = "dynamic" then .ok .Dynamic
  else if value = "none" then .ok .None
  else
    match stripLead "static:".data value.data with
    | some rest => .ok (.Static (String.mk rest))
    | none => .error (value ++ " is not a valid terminfo resolution value")

/-- Embeds `impl TryFrom<String> for TerminfoResolution` (lines 124-130). -/
def TerminfoResolution.tryFromString (value : String) : Except String TerminfoResolution :=
  TerminfoResolution.tryFrom value

/-- Embeds `enum MemoryAllocatorBackend` (lines 136-147). -/
inductive MemoryAllocatorBackend where
  | Default
  | Jemalloc
  | Mimalloc
  | Snmalloc
  | Rust
deriving DecidableEq

/-- Embeds `impl Default for MemoryAllocatorBackend` (lines 149-157): the
Rust code branches on `cfg!(windows)`, a compile-time constant of the target
platform family; it is modelled as an explicit boolean parameter. -/
def MemoryAllocatorBackend.defaultFor (windows : Bool) : MemoryAllocatorBackend :=
  if windows then .Default else .Jemalloc

/-- Embeds `impl ToString for MemoryAllocatorBackend` (lines 159-170). -/
def MemoryAllocatorBackend.toString : MemoryAllocatorBackend → String
  | .Default => "default"
  | .Jemalloc => "jemalloc"
  | .Mimalloc => "mimalloc"
  | .Snmalloc => "snmalloc"
  | .Rust => "rust"

/-- Embeds `impl TryFrom<&str> for MemoryAllocatorBackend` (lines 178-191). -/
def MemoryAllocatorBackend.tryFrom (value : String) : Except String MemoryAllocatorBackend :=
  if value = "default" then .ok .Default
  else if value = "jemalloc" then .ok .Jemalloc
  else if value = "mimalloc" then .ok .Mimalloc
  else if value = "snmalloc" then .ok .Snmalloc
  else if value = "rust" then .ok .Rust
  else .error (value ++ " is not a valid memory allocator backend")

/-- Embeds `impl TryFrom<String> for MemoryAllocatorBackend` (lines 193-199). -/
def MemoryAllocatorBackend.tryFromString (value : String) : Except String MemoryAllocatorBackend :=
  MemoryAllocatorBackend.tryFrom value

/-- Embeds `enum CoerceCLocale` (lines 207-211). -/
inductive CoerceCLocale where
  | LCCtype
  | C
deriving DecidableEq

/-- Embeds `impl ToString for CoerceCLocale` (lines 213-221): note the
tokens are the uppercase strings `"LC_CTYPE"` and `"C"`. -/
def CoerceCLocale.toString : CoerceCLocale → String
  | .LCCtype => "LC_CTYPE"
  | .C => "C"

/-- Embeds `impl TryFrom<&str> for CoerceCLocale` (lines 229-239). -/
def CoerceCLocale.tryFrom (value : String) : Except String CoerceCLocale :=
  if value = "LC_CTYPE" then .ok .LCCtype
  else if value = "C" then .ok .C
  else .error (value ++ " is not a valid C locale coercion value")

/-- Embeds `impl TryFrom<String> for CoerceCLocale` (lines 241-247). -/
def CoerceCLocale.tryFromString (value : String) : Except String CoerceCLocale :=
  CoerceCLocale.tryFrom value

/-- Embeds `enum BytesWarning` (lines 255-259). -/
inductive BytesWarning where
  | None
  | Warn
  | Raise
deriving DecidableEq

/-- Embeds `impl ToString for BytesWarning` (lines 261-270). -/
def BytesWarning.toString : BytesWarning → String
  | .None => "none"
  | .Warn => "warn"
  | .Raise => "raise"

/-- Embeds `impl TryFrom<&str> for BytesWarning` (lines 278-289). -/
def BytesWarning.tryFrom (value : String) : Except String BytesWarning :=
  if value = "none" then .ok .None
  else if value = "warn" then .ok .Warn
  else if value = "raise" then .ok .Raise
  else .error (value ++ " is not a valid bytes warning value")

/-- Embeds `impl TryFrom<String> for BytesWarning` (lines 291-297). -/
def BytesWarning.tryFromString (value : String) : Except String BytesWarning :=
  BytesWarning.tryFrom value

/-- Embeds `impl From<i32> for BytesWarning` (lines 299-307): Rust `i32` is
modelled as `Int`; the Rust `match` maps `0`, `1`, and a catch-all arm. -/
def BytesWarning.fromCode (value : Int) : BytesWarning :=
  if value = 0 then .None
  else if value = 1 then .Warn
  else .Raise

/-- Embeds `enum CheckHashPycsMode` (lines 313-317). -/
inductive CheckHashPycsMode where
  | Always
  | Never
  | Default
deriving DecidableEq

/-- Embeds `impl ToString for CheckHashPycsMode` (lines 319-328). -/
def CheckHashPycsMode.toString : CheckHashPycsMode → String
  | .Always => "always"
  | .Never => "never"
  | .Default => "default"

/-- Embeds `impl TryFrom<&str> for CheckHashPycsMode` (lines 336-350). -/
def CheckHashPycsMode.tryFrom (value : String) : Except String CheckHashPycsMode :=
  if value = "always" then .ok .Always
  else if value = "never" then .ok .Never
  else if value = "default" then .ok .Default
  else .error (value ++ " is not a valid check hash pycs mode value")

/-- Embeds `impl TryFrom<String> for CheckHashPycsMode` (lines 352-358). -/
def CheckHashPycsMode.tryFromString (value : String) : Except String CheckHashPycsMode :=
  CheckHashPycsMode.tryFrom value

/-- Embeds `enum Allocator` (lines 364-372). -/
inductive Allocator where
  | NotSet
  | Default
  | Debug
  | Malloc
  | MallocDebug
  | PyMalloc
  | PyMallocDebug
deriving DecidableEq

/-- Embeds `impl ToString for Allocator` (lines 374-387). -/
def Allocator.toString : Allocator → String
  | .NotSet => "not-set"
  | .Default => "default"
  | .Debug => "debug"
  | .Malloc => "malloc"
  | .MallocDebug => "malloc-debug"
  | .PyMalloc => "py-malloc"
  | .PyMallocDebug => "py-malloc-debug"

/-- Embeds `impl TryFrom<&str> for Allocator` (lines 395-410). -/
def Allocator.tryFrom (value : String) : Except String Allocator :=
  if value = "not-set" then .ok .NotSet
  else if value = "default" then .ok .Default
  else if value = "debug" then .ok .Debug
  else if value = "malloc" then .ok .Malloc
  else if value = "malloc-debug" then .ok .MallocDebug
  else if value = "py-malloc" then .ok .PyMalloc
  else if value = "py-malloc-debug" then .ok .PyMallocDebug
  else .error (value ++ " is not a valid allocator value")

/-- Embeds `impl TryFrom<String> for Allocator` (lines 412-418). -/
def Allocator.tryFromString (value : String) : Except String Allocator :=
  Allocator.tryFrom value

/-- Embeds `enum MultiprocessingStartMethod` (lines 424-435). -/
inductive MultiprocessingStartMethod where
  | None
  | Fork
  | ForkServer
  | Spawn
  | Auto
deriving DecidableEq

/-- Embeds `impl ToString for MultiprocessingStartMethod` (lines 437-448). -/
def MultiprocessingStartMethod.toString : MultiprocessingStartMethod → String
  | .None => "none"
  | .Fork => "fork"
  | .ForkServer => "forkserver"
  | .Spawn => "spawn"
  | .Auto => "auto"

/-- Embeds `impl FromStr for MultiprocessingStartMethod` (lines 456-469). -/
def MultiprocessingStartMethod.fromStr (s : String) : Except String MultiprocessingStartMethod :=
  if s = "none" then .ok .None
  else if s = "fork" then .ok .Fork
  else if s = "forkserver" then .ok .ForkServer
  else if s = "spawn" then .ok .Spawn
  else if s = "auto" then .ok .Auto
  else .error (s ++ " is not a valid multiprocessing start method")

/-- Embeds `impl TryFrom<&str> for MultiprocessingStartMethod` (lines
471-477): it delegates to `from_str`. -/
def MultiprocessingStartMethod.tryFrom (v : String) : Except String MultiprocessingStartMethod :=
  MultiprocessingStartMethod.fromStr v

/-- Embeds `impl TryFrom<String> for MultiprocessingStartMethod` (lines
479-485). -/
def MultiprocessingStartMethod.tryFromString (value : String) : Except String MultiprocessingStartMethod :=
  MultiprocessingStartMethod.tryFrom value

/-- Modelled from the spec: the bytecode optimization level referenced by the
configuration record's `optimization_level` field. Its defining module
(`resource.rs`) is not part of the sources here; the spec treats it as an
out-of-scope scalar, so it is modelled as an opaque-free three-level scalar
matching CPython optimization levels. Only its presence as an optional field
matters to the claims. -/
inductive BytecodeOptimizationLevel where
  | Zero
  | One
  | Two
deriving DecidableEq

/-- Embeds `struct PythonInterpreterConfig` (lines 498-783): one mandatory
`profile` plus independently optional fields. `PathBuf` and `OsString` are
modelled as `String`, `Vec` as `List`, `c_ulong` as `Nat`. The Rust field
`prefix` is spelled `prefix_` because `prefix` is a Lean keyword. -/
structure PythonInterpreterConfig where
  profile : PythonInterpreterProfile
  allocator : Option Allocator
  configure_locale : Option Bool
  coerce_c_locale : Option CoerceCLocale
  coerce_c_locale_warn : Option Bool
  development_mode : Option Bool
  isolated : Option Bool
  legacy_windows_fs_encoding : Option Bool
  parse_argv : Option Bool
  use_environment : Option Bool
  utf8_mode : Option Bool
  argv : Option (List String)
  base_exec_prefix : Option String
  base_executable : Option String
  base_prefix : Option String
  buffered_stdio : Option Bool
  bytes_warning : Option BytesWarning
  check_hash_pycs_mode : Option CheckHashPycsMode
  configure_c_stdio : Option Bool
  dump_refs : Option Bool
  exec_prefix : Option String
  executable : Option String
  fault_handler : Option Bool
  filesystem_encoding : Option String
  filesystem_errors : Option String
  hash_seed : Option Nat
  home : Option String
  import_time : Option Bool
  inspect : Option Bool
  install_signal_handlers : Option Bool
  interactive : Option Bool
  legacy_windows_stdio : Option Bool
  malloc_stats : Option Bool
  module_search_paths : Option (List String)
  optimization_level : Option BytecodeOptimizationLevel
  parser_debug : Option Bool
  pathconfig_warnings : Option Bool
  prefix_ : Option String
  program_name : Option String
  pycache_prefix : Option String
  python_path_env : Option String
  quiet : Option Bool
  run_command : Option String
  run_filename : Option String
  run_module : Option String
  show_ref_count : Option Bool
  site_import : Option Bool
  skip_first_source_line : Option Bool
  stdio_encoding : Option String
  stdio_errors : Option String
  tracemalloc : Option Bool
  user_site_directory : Option Bool
  verbose : Option Bool
  warn_options : Option (List String)
  write_bytecode : Option Bool
  x_options : Option (List String)
deriving DecidableEq

/-- Embeds the derived `Default` of `PythonInterpreterConfig` (line 495):
Rust `#[derive(Default)]` sets each field to its type's default, so
`profile` uses `PythonInterpreterProfile::default()` and every `Option`
field is `None`. -/
def PythonInterpreterConfig.default : PythonInterpreterConfig where
  profile := PythonInterpreterProfile.default
  allocator := none
  configure_locale := none
  coerce_c_locale := none
  coerce_c_locale_warn := none
  development_mode := none
  isolated := none
  legacy_windows_fs_encoding := none
  parse_argv := none
  use_environment := none
  utf8_mode := none
  argv := none
  base_exec_prefix := none
  base_executable := none
  base_prefix := none
  buffered_stdio := none
  bytes_warning := none
  check_hash_pycs_mode := none
  configure_c_stdio := none
  dump_refs := none
  exec_prefix := none
  executable := none
  fault_handler := none
  filesystem_encoding := none
  filesystem_errors := none
  hash_seed := none
  home := none
  import_time := none
  inspect := none
  install_signal_handlers := none
  interactive := none
  legacy_windows_stdio := none
  malloc_stats := none
  module_search_paths := none
  optimization_level := none
  parser_debug := none
  pathconfig_warnings := none
  prefix_ := none
  program_name := none
  pycache_prefix := none
  python_path_env := none
  quiet := none
  run_command := none
  run_filename := none
  run_module := none
  show_ref_count := none
  site_import := none
  skip_first_source_line := none
  stdio_encoding := none
  stdio_errors := none
  tracemalloc := none
  user_site_directory := none
  verbose := none
  warn_options := none
  write_bytecode := none
  x_options := none

/-- Modelled from the spec: a structured external document carrying string
tokens for the enum-typed fields of the configuration record. The decoding
mechanism itself (the derived serde deserialization, not present in the
sources here) is out of scope; the spec owns only the per-field validation
and atomicity contract (spec sections 4.2 and 7). -/
structure ConfigDoc where
  profile : Option String
  allocator : Option String
  coerce_c_locale : Option String
  bytes_warning : Option String
  check_hash_pycs_mode : Option String
deriving DecidableEq

/-- Modelled from the spec: the typed result of validating every enum token
present in a `ConfigDoc`. -/
structure ConfigUpdate where
  profile : Option PythonInterpreterProfile
  allocator : Option Allocator
  coerce_c_locale : Option CoerceCLocale
  bytes_warning : Option BytesWarning
  check_hash_pycs_mode : Option CheckHashPycsMode

/-- Validates one optional field of a document with the given enum parser:
an absent field stays absent, a present token must parse. -/
def parseField {α : Type} (p : String → Except String α) : Option String → Except String (Option α)
  | none => Except.ok none
  | some s => Except.map some (p s)

/-- Modelled from the spec: bulk validation of a document, applying the same
per-field enum-token parsers as the individual setters; the first invalid
token fails the whole validation. -/
def parseDoc (d : ConfigDoc) : Except String ConfigUpdate :=
  match parseField PythonInterpreterProfile.tryFrom d.profile with
  | .error e => .error e
  | .ok p =>
    match parseField Allocator.tryFrom d.allocator with
    | .error e => .error e
    | .ok a =>
      match parseField CoerceCLocale.tryFrom d.coerce_c_locale with
      | .error e => .error e
      | .ok c =>
        match parseField BytesWarning.tryFrom d.bytes_warning with
        | .error e => .error e
        | .ok b =>
          match parseField CheckHashPycsMode.tryFrom d.check_hash_pycs_mode with
          | .error e => .error e
          | .ok h =>
            .ok { profile := p, allocator := a, coerce_c_locale := c,
                  bytes_warning := b, check_hash_pycs_mode := h }

/-- Overwrites a record field when the update carries a value for it. -/
def mergeField {α : Type} : Option α → Option α → Option α
  | some a, _ => some a
  | none, old => old

/-- Applies a fully validated update to a record. -/
def applyUpdate (r : PythonInterpreterConfig) (u : ConfigUpdate) : PythonInterpreterConfig :=
  { r with
    profile := match u.profile with | some p => p | none => r.profile
    allocator := mergeField u.allocator r.allocator
    coerce_c_locale := mergeField u.coerce_c_locale r.coerce_c_locale
    bytes_warning := mergeField u.bytes_warning r.bytes_warning
    check_hash_pycs_mode := mergeField u.check_hash_pycs_mode r.check_hash_pycs_mode }

/-- Modelled from the spec: bulk population of a configuration record from a
structured external document (spec section 4.2). The result pairs the
resulting record with an optional error; on any invalid token the error is
reported and the returned record is the untouched input record. -/
def bulkPopulate (r : PythonInterpreterConfig) (d : ConfigDoc) : PythonInterpreterConfig × Option String :=
  match parseDoc d with
  | .ok u => (applyUpdate r u, none)
  | .error e => (r, some e)

theorem stripLead_append (p rest : List Char) : stripLead p (p ++ rest) = some rest := by
  induction p with
  | nil => rfl
  | cons c cs ih => simp [stripLead, ih]

theorem stripLead_eq_some (p : List Char) :
    ∀ cs rest, stripLead p cs = some rest → cs = p ++ rest := by
  induction p with
  | nil => intro cs rest h; simp [stripLead] at h; simp [h]
  | cons c cs ih =>
      intro l rest h
      cases l with
      | nil => simp [stripLead] at h
      | cons d ds =>
          simp only [stripLead] at h
          by_cases hc : c = d
          · subst hc
            simp at h
            have := ih ds rest h
            simp [this]
          · simp [hc] at h

theorem static_ne_dynamic (s : String) : ("static:" ++ s) ≠ "dynamic" := by
  intro h
  have h2 : ("static:" ++ s).data = "dynamic".data := by rw [h]
  rw [String.data_append] at h2
  simp at h2

theorem static_ne_none (s : String) : ("static:" ++ s) ≠ "none" := by
  intro h
  have h2 : ("static:" ++ s).data = "none".data := by rw [h]
  rw [String.data_append] at h2
  simp at h2

theorem terminfo_tryFrom_static (s : String) :
    TerminfoResolution.tryFrom ("static:" ++ s) = .ok (.Static s) := by
  unfold TerminfoResolution.tryFrom
  rw [if_neg (static_ne_dynamic s), if_neg (static_ne_none s)]
  rw [String.data_append, stripLead_append]

theorem hasSub_append (need t : List Char) (h : hasSub need t = true) :
    ∀ pre : List Char, hasSub need (pre ++ t) = true := by
  intro pre
  induction pre with
  | nil => simpa using h
  | cons c cs ih => simp [hasSub, ih]

theorem profile_rt1 (v : PythonInterpreterProfile) :
    PythonInterpreterProfile.tryFrom (PythonInterpreterProfile.toString v) = .ok v := by
  cases v <;> rfl

theorem profile_rt2 (s : String) (v : PythonInterpreterProfile)
    (h : PythonInterpreterProfile.tryFrom s = .ok v) :
    PythonInterpreterProfile.toString v = s := by
  unfold PythonInterpreterProfile.tryFrom at h
  split_ifs at h <;> simp at h <;> subst h <;> simp_all [PythonInterpreterProfile.toString]

theorem terminfo_rt1 (v : TerminfoResolution) :
    TerminfoResolution.tryFrom (TerminfoResolution.toString v) = .ok v := by
  cases v with
  | Dynamic => rfl
  | None => rfl
  | Static s => exact terminfo_tryFrom_static s

theorem terminfo_rt2 (s : String) (v : TerminfoResolution)
    (h : TerminfoResolution.tryFrom s = .ok v) : TerminfoResolution.toString v = s := by
  unfold TerminfoResolution.tryFrom at h
  split_ifs at h with h1 h2
  · simp at h; subst h1; simp [TerminfoResolution.toString, ← h]
  · simp at h; subst h2; simp [TerminfoResolution.toString, ← h]
  · cases hm : stripLead "static:".data s.data with
    | none => rw [hm] at h; simp at h
    | some rest =>
        rw [hm] at h
        simp at h
        have hd := stripLead_eq_some _ _ _ hm
        subst h
        apply String.ext
        simp [TerminfoResolution.toString, String.data_append, hd]

theorem memalloc_rt1 (v : MemoryAllocatorBackend) :
    MemoryAllocatorBackend.tryFrom (MemoryAllocatorBackend.toString v) = .ok v := by
  cases v <;> rfl

theorem memalloc_rt2 (s : String) (v : MemoryAllocatorBackend)
    (h : MemoryAllocatorBackend.tryFrom s = .ok v) :
    MemoryAllocatorBackend.toString v = s := by
  unfold MemoryAllocatorBackend.tryFrom at h
  split_ifs at h <;> simp at h <;> subst h <;> simp_all [MemoryAllocatorBackend.toString]

theorem coerce_rt1 (v : CoerceCLocale) :
    CoerceCLocale.tryFrom (CoerceCLocale.toString v) = .ok v := by
  cases v <;> rfl

theorem coerce_rt2 (s : String) (v : CoerceCLocale)
    (h : CoerceCLocale.tryFrom s = .ok v) : CoerceCLocale.toString v = s := by
  unfold CoerceCLocale.tryFrom at h
  split_ifs at h <;> simp at h <;> subst h <;> simp_all [CoerceCLocale.toString]

theorem byteswarn_rt1 (v : BytesWarning) :
    BytesWarning.tryFrom (BytesWarning.toString v) = .ok v := by
  cases v <;> rfl

theorem byteswarn_rt2 (s : String) (v : BytesWarning)
    (h : BytesWarning.tryFrom s = .ok v) : BytesWarning.toString v = s := by
  unfold BytesWarning.tryFrom at h
  split_ifs at h <;> simp at h <;> subst h <;> simp_all [BytesWarning.toString]

theorem checkhash_rt1 (v : CheckHashPycsMode) :
    CheckHashPycsMode.tryFrom (CheckHashPycsMode.toString v) = .ok v := by
  cases v <;> rfl

theorem checkhash_rt2 (s : String) (v : CheckHashPycsMode)
    (h : CheckHashPycsMode.tryFrom s = .ok v) : CheckHashPycsMode.toString v = s := by
  unfold CheckHashPycsMode.tryFrom at h
  split_ifs at h <;> simp at h <;> subst h <;> simp_all [CheckHashPycsMode.toString]

theorem alloc_rt1 (v : Allocator) :
    Allocator.tryFrom (Allocator.toString v) = .ok v := by
  cases v <;> rfl

theorem alloc_rt2 (s : String) (v : Allocator)
    (h : Allocator.tryFrom s = .ok v) : Allocator.toString v = s := by
  unfold Allocator.tryFrom at h
  split_ifs at h <;> simp at h <;> subst h <;> simp_all [Allocator.toString]

theorem mpstart_rt1 (v : MultiprocessingStartMethod) :
    MultiprocessingStartMethod.tryFrom (MultiprocessingStartMethod.toString v) = .ok v := by
  cases v <;> rfl

theorem mpstart_rt2 (s : String) (v : MultiprocessingStartMethod)
    (h : MultiprocessingStartMethod.tryFrom s = .ok v) :
    MultiprocessingStartMethod.toString v = s := by
  unfold MultiprocessingStartMethod.tryFrom MultiprocessingStartMethod.fromStr at h
  split_ifs at h <;> simp at h <;> subst h <;> simp_all [MultiprocessingStartMethod.toString]

theorem profile_err (s e : String) (h : PythonInterpreterProfile.tryFrom s = .error e) :
    e = s ++ " is not a valid profile; use \x27isolated\x27 or \x27python\x27" := by
  unfold PythonInterpreterProfile.tryFrom at h
  split_ifs at h <;> simp_all

theorem terminfo_err (s e : String) (h : TerminfoResolution.tryFrom s = .error e) :
    e = s ++ " is not a valid terminfo resolution value" := by
  unfold TerminfoResolution.tryFrom at h
  split_ifs at h
  cases hm : stripLead "static:".data s.data with
  | none => rw [hm] at h; simp_all
  | some rest => rw [hm] at h; simp_all

theorem memalloc_err (s e : String) (h : MemoryAllocatorBackend.tryFrom s = .error e) :
    e = s ++ " is not a valid memory allocator backend" := by
  unfold MemoryAllocatorBackend.tryFrom at h
  split_ifs at h <;> simp_all

theorem coerce_err (s e : String) (h : CoerceCLocale.tryFrom s = .error e) :
    e = s ++ " is not a valid C locale coercion value" := by
  unfold CoerceCLocale.tryFrom at h
  split_ifs at h <;> simp_all

theorem byteswarn_err (s e : String) (h : BytesWarning.tryFrom s = .error e) :
    e = s ++ " is not a valid bytes warning value" := by
  unfold BytesWarning.tryFrom at h
  split_ifs at h <;> simp_all

theorem checkhash_err (s e : String) (h : CheckHashPycsMode.tryFrom s = .error e) :
    e = s ++ " is not a valid check hash pycs mode value" := by
  unfold CheckHashPycsMode.tryFrom at h
  split_ifs at h <;> simp_all

theorem alloc_err (s e : String) (h : Allocator.tryFrom s = .error e) :
    e = s ++ " is not a valid allocator value" := by
  unfold Allocator.tryFrom at h
  split_ifs at h <;> simp_all

theorem mpstart_err (s e : String) (h : MultiprocessingStartMethod.tryFrom s = .error e) :
    e = s ++ " is not a valid multiprocessing start method" := by
  unfold MultiprocessingStartMethod.tryFrom MultiprocessingStartMethod.fromStr at h
  split_ifs at h <;> simp_all

theorem parseField_ok {α : Type} (p : String → Except String α) (o : Option String)
    (v : Option α) (h : parseField p o = .ok v) (s : String) (hs : o = some s) :
    (p s).isOk = true := by
  subst hs
  simp only [parseField] at h
  cases hps : p s with
  | error e => rw [hps] at h; simp [Except.map] at h
  | ok a => rfl

theorem parseDoc_ok_parts {d : ConfigDoc} {u : ConfigUpdate} (h : parseDoc d = Except.ok u) :
    (parseField PythonInterpreterProfile.tryFrom d.profile).isOk = true ∧
    (parseField Allocator.tryFrom d.allocator).isOk = true ∧
    (parseField CoerceCLocale.tryFrom d.coerce_c_locale).isOk = true ∧
    (parseField BytesWarning.tryFrom d.bytes_warning).isOk = true ∧
    (parseField CheckHashPycsMode.tryFrom d.check_hash_pycs_mode).isOk = true := by
  unfold parseDoc at h
  cases h1 : parseField PythonInterpreterProfile.tryFrom d.profile with
  | error e => rw [h1] at h; simp at h
  | ok p =>
    rw [h1] at h
    cases h2 : parseField Allocator.tryFrom d.allocator with
    | error e => rw [h2] at h; simp at h
    | ok a =>
      rw [h2] at h
      cases h3 : parseField CoerceCLocale.tryFrom d.coerce_c_locale with
      | error e => rw [h3] at h; simp at h
      | ok c =>
        rw [h3] at h
        cases h4 : parseField BytesWarning.tryFrom d.bytes_warning with
        | error e => rw [h4] at h; simp at h
        | ok b =>
          rw [h4] at h
          cases h5 : parseField CheckHashPycsMode.tryFrom d.check_hash_pycs_mode with
          | error e => rw [h5] at h; simp at h
          | ok hm => exact ⟨rfl, rfl, rfl, rfl, rfl⟩

theorem bulkPopulate_err_of_not_ok {r : PythonInterpreterConfig} {d : ConfigDoc}
    (hbad : ¬(parseDoc d).isOk = true) :
    ((bulkPopulate r d).2).isSome = true ∧ (bulkPopulate r d).1 = r := by
  unfold bulkPopulate
  cases hp : parseDoc d with
  | error e => exact ⟨rfl, rfl⟩
  | ok u => exact absurd (by rw [hp]; rfl) hbad

/-- Claim C5: the default-constructed configuration record has profile
`Isolated` and every one of its optional fields unset (`none`). Stability
and reproducibility hold because `PythonInterpreterConfig.default` is a
closed pure value: every evaluation denotes this same record. -/
theorem claim_C5_default_state :
    PythonInterpreterConfig.default.profile = PythonInterpreterProfile.Isolated ∧
    PythonInterpreterConfig.allocator PythonInterpreterConfig.default = none ∧
    PythonInterpreterConfig.configure_locale PythonInterpreterConfig.default = none ∧
    PythonInterpreterConfig.coerce_c_locale PythonInterpreterConfig.default = none ∧
    PythonInterpreterConfig.coerce_c_locale_warn PythonInterpreterConfig.default = none ∧
    PythonInterpreterConfig.development_mode PythonInterpreterConfig.default = none ∧
    PythonInterpreterConfig.isolated PythonInterpreterConfig.default = none ∧
    PythonInterpreterConfig.legacy_windows_fs_encoding PythonInterpreterConfig.default = none ∧
    PythonInterpreterConfig.parse_argv PythonInterpreterConfig.default = none ∧
    PythonInterpreterConfig.use_environment PythonInterpreterConfig.default = none ∧
    PythonInterpreterConfig.utf8_mode PythonInterpreterConfig.default = none ∧
    PythonInterpreterConfig.argv PythonInterpreterConfig.default = none ∧
    PythonInterpreterConfig.base_exec_prefix PythonInterpreterConfig.default = none ∧
    PythonInterpreterConfig.base_executable PythonInterpreterConfig.default = none ∧
    PythonInterpreterConfig.base_prefix PythonInterpreterConfig.default = none ∧
    PythonInterpreterConfig.buffered_stdio PythonInterpreterConfig.default = none ∧
    PythonInterpreterConfig.bytes_warning PythonInterpreterConfig.default = none ∧
    PythonInterpreterConfig.check_hash_pycs_mode PythonInterpreterConfig.default = none ∧
    PythonInterpreterConfig.configure_c_stdio PythonInterpreterConfig.default = none ∧
    PythonInterpreterConfig.dump_refs PythonInterpreterConfig.default = none ∧
    PythonInterpreterConfig.exec_prefix PythonInterpreterConfig.default = none ∧
    PythonInterpreterConfig.executable PythonInterpreterConfig.default = none ∧
    PythonInterpreterConfig.fault_handler PythonInterpreterConfig.default = none ∧
    PythonInterpreterConfig.filesystem_encoding PythonInterpreterConfig.default = none ∧
    PythonInterpreterConfig.filesystem_errors PythonInterpreterConfig.default = none ∧
    PythonInterpreterConfig.hash_seed PythonInterpreterConfig.default = none ∧
    PythonInterpreterConfig.home PythonInterpreterConfig.default = none ∧
    PythonInterpreterConfig.import_time PythonInterpreterConfig.default = none ∧
    PythonInterpreterConfig.inspect PythonInterpreterConfig.default = none ∧
    PythonInterpreterConfig.install_signal_handlers PythonInterpreterConfig.default = none ∧
    PythonInterpreterConfig.interactive PythonInterpreterConfig.default = none ∧
    PythonInterpreterConfig.legacy_windows_stdio PythonInterpreterConfig.default = none ∧
    PythonInterpreterConfig.malloc_stats PythonInterpreterConfig.default = none ∧
    PythonInterpreterConfig.module_search_paths PythonInterpreterConfig.default = none ∧
    PythonInterpreterConfig.optimization_level PythonInterpreterConfig.default = none ∧
    PythonInterpreterConfig.parser_debug PythonInterpreterConfig.default = none ∧
    PythonInterpreterConfig.pathconfig_warnings PythonInterpreterConfig.default = none ∧
    PythonInterpreterConfig.prefix_ PythonInterpreterConfig.default = none ∧
    PythonInterpreterConfig.program_name PythonInterpreterConfig.default = none ∧
    PythonInterpreterConfig.pycache_prefix PythonInterpreterConfig.default = none ∧
    PythonInterpreterConfig.python_path_env PythonInterpreterConfig.default = none ∧
    PythonInterpreterConfig.quiet PythonInterpreterConfig.default = none ∧
    PythonInterpreterConfig.run_command PythonInterpreterConfig.default = none ∧
    PythonInterpreterConfig.run_filename PythonInterpreterConfig.default = none ∧
    PythonInterpreterConfig.run_module PythonInterpreterConfig.default = none ∧
    PythonInterpreterConfig.show_ref_count PythonInterpreterConfig.default = none ∧
    PythonInterpreterConfig.site_import PythonInterpreterConfig.default = none ∧
    PythonInterpreterConfig.skip_first_source_line PythonInterpreterConfig.default = none ∧
    PythonInterpreterConfig.stdio_encoding PythonInterpreterConfig.default = none ∧
    PythonInterpreterConfig.stdio_errors PythonInterpreterConfig.default = none ∧
    PythonInterpreterConfig.tracemalloc PythonInterpreterConfig.default = none ∧
    PythonInterpreterConfig.user_site_directory PythonInterpreterConfig.default = none ∧
    PythonInterpreterConfig.verbose PythonInterpreterConfig.default = none ∧
    PythonInterpreterConfig.warn_options PythonInterpreterConfig.default = none ∧
    PythonInterpreterConfig.write_bytecode PythonInterpreterConfig.default = none ∧
    PythonInterpreterConfig.x_options PythonInterpreterConfig.default = none := by
  exact ⟨rfl, rfl, rfl, rfl, rfl, rfl, rfl, rfl, rfl, rfl, rfl, rfl, rfl, rfl, rfl, rfl, rfl, rfl, rfl, rfl, rfl, rfl, rfl, rfl, rfl, rfl, rfl, rfl, rfl, rfl, rfl, rfl, rfl, rfl, rfl, rfl, rfl, rfl, rfl, rfl, rfl, rfl, rfl, rfl, rfl, rfl, rfl, rfl, rfl, rfl, rfl, rfl, rfl, rfl, rfl, rfl⟩

/-- Claim C1: for every enumeration and every variant `v`,
`tryFrom (toString v) = ok v`; and conversely every string accepted by
`tryFrom` is reproduced exactly by `toString` of the parsed variant, so the
round-trip law holds in both directions for all eight enumerations. -/
theorem claim_C1_enum_roundtrip :
    ((∀ v : PythonInterpreterProfile,
        PythonInterpreterProfile.tryFrom (PythonInterpreterProfile.toString v) = .ok v) ∧
      (∀ s v, PythonInterpreterProfile.tryFrom s = .ok v →
        PythonInterpreterProfile.toString v = s)) ∧
    ((∀ v : TerminfoResolution,
        TerminfoResolution.tryFrom (TerminfoResolution.toString v) = .ok v) ∧
      (∀ s v, TerminfoResolution.tryFrom s = .ok v → TerminfoResolution.toString v = s)) ∧
    ((∀ v : MemoryAllocatorBackend,
        MemoryAllocatorBackend.tryFrom (MemoryAllocatorBackend.toString v) = .ok v) ∧
      (∀ s v, MemoryAllocatorBackend.tryFrom s = .ok v →
        MemoryAllocatorBackend.toString v = s)) ∧
    ((∀ v : CoerceCLocale,
        CoerceCLocale.tryFrom (CoerceCLocale.toString v) = .ok v) ∧
      (∀ s v, CoerceCLocale.tryFrom s = .ok v → CoerceCLocale.toString v = s)) ∧
    ((∀ v : BytesWarning,
        BytesWarning.tryFrom (BytesWarning.toString v) = .ok v) ∧
      (∀ s v, BytesWarning.tryFrom s = .ok v → BytesWarning.toString v = s)) ∧
    ((∀ v : CheckHashPycsMode,
        CheckHashPycsMode.tryFrom (CheckHashPycsMode.toString v) = .ok v) ∧
      (∀ s v, CheckHashPycsMode.tryFrom s = .ok v → CheckHashPycsMode.toString v = s)) ∧
    ((∀ v : Allocator,
        Allocator.tryFrom (Allocator.toString v) = .ok v) ∧
      (∀ s v, Allocator.tryFrom s = .ok v → Allocator.toString v = s)) ∧
    ((∀ v : MultiprocessingStartMethod,
        MultiprocessingStartMethod.tryFrom (MultiprocessingStartMethod.toString v) = .ok v) ∧
      (∀ s v, MultiprocessingStartMethod.tryFrom s = .ok v →
        MultiprocessingStartMethod.toString v = s)) :=
  ⟨⟨profile_rt1, profile_rt2⟩, ⟨terminfo_rt1, terminfo_rt2⟩, ⟨memalloc_rt1, memalloc_rt2⟩,
    ⟨coerce_rt1, coerce_rt2⟩, ⟨byteswarn_rt1, byteswarn_rt2⟩, ⟨checkhash_rt1, checkhash_rt2⟩,
    ⟨alloc_rt1, alloc_rt2⟩, ⟨mpstart_rt1, mpstart_rt2⟩⟩

/-- Witness for claim C1: the reverse round-trip direction instantiated at
one concretely accepted string per enumeration. -/
theorem claim_C1_enum_roundtrip_witness :
    PythonInterpreterProfile.toString PythonInterpreterProfile.Python = "python" ∧
    TerminfoResolution.toString (TerminfoResolution.Static "/usr/share/terminfo") =
      "static:/usr/share/terminfo" ∧
    MemoryAllocatorBackend.toString MemoryAllocatorBackend.Jemalloc = "jemalloc" ∧
    CoerceCLocale.toString CoerceCLocale.C = "C" ∧
    BytesWarning.toString BytesWarning.Warn = "warn" ∧
    CheckHashPycsMode.toString CheckHashPycsMode.Never = "never" ∧
    Allocator.toString Allocator.PyMallocDebug = "py-malloc-debug" ∧
    MultiprocessingStartMethod.toString MultiprocessingStartMethod.Spawn = "spawn" :=
  ⟨claim_C1_enum_roundtrip.1.2 "python" _ rfl,
    claim_C1_enum_roundtrip.2.1.2 "static:/usr/share/terminfo" _ rfl,
    claim_C1_enum_roundtrip.2.2.1.2 "jemalloc" _ rfl,
    claim_C1_enum_roundtrip.2.2.2.1.2 "C" _ rfl,
    claim_C1_enum_roundtrip.2.2.2.2.1.2 "warn" _ rfl,
    claim_C1_enum_roundtrip.2.2.2.2.2.1.2 "never" _ rfl,
    claim_C1_enum_roundtrip.2.2.2.2.2.2.1.2 "py-malloc-debug" _ rfl,
    claim_C1_enum_roundtrip.2.2.2.2.2.2.2.2 "spawn" _ rfl⟩

/-- Claim C2: for every string `s`, parsing `"static:" ++ s` as a terminfo
resolution succeeds with `Static s` (including the empty payload and
payloads containing colons, since `s` is arbitrary), and `"dynamic"` and
`"none"` parse to `Dynamic` and `None`. -/
theorem claim_C2_terminfo_payload :
    (∀ s : String, TerminfoResolution.tryFrom ("static:" ++ s) = .ok (.Static s)) ∧
    TerminfoResolution.tryFrom "dynamic" = .ok .Dynamic ∧
    TerminfoResolution.tryFrom "none" = .ok .None :=
  ⟨terminfo_tryFrom_static, rfl, rfl⟩

/-- Claim C3: the numeric conversion for `BytesWarning` is total and
saturating: 0 maps to `None`, 1 to `Warn`, and every other integer
(negative or greater than one) to `Raise`; being a total function it never
errors. -/
theorem claim_C3_bytes_warning_saturation :
    BytesWarning.fromCode 0 = .None ∧
    BytesWarning.fromCode 1 = .Warn ∧
    (∀ n : Int, n ≠ 0 → n ≠ 1 → BytesWarning.fromCode n = .Raise) :=
  ⟨rfl, rfl, by intro n h0 h1; simp [BytesWarning.fromCode, h0, h1]⟩

/-- Witness for claim C3: the saturating arm evaluated at a negative input
and at a large positive input. -/
theorem claim_C3_bytes_warning_saturation_witness :
    BytesWarning.fromCode (-5) = .Raise ∧ BytesWarning.fromCode 1000000 = .Raise :=
  ⟨claim_C3_bytes_warning_saturation.2.2 (-5) (by decide) (by decide),
    claim_C3_bytes_warning_saturation.2.2 1000000 (by decide) (by decide)⟩

/-- Claim C4: for every enumeration, any string outside its accepted token
set (or, for terminfo, outside the shapes `"dynamic"`, `"none"`, and
`"static:"`-prefixed) parses to the invalid-token error; as total functions
into `Except`, the parsers never panic and never return a default variant
on rejected input. -/
theorem claim_C4_total_rejection :
    (∀ s : String, s ∉ (["isolated", "python"] : List String) →
      PythonInterpreterProfile.tryFrom s =
        .error (s ++ " is not a valid profile; use \x27isolated\x27 or \x27python\x27")) ∧
    (∀ s : String, s ≠ "dynamic" → s ≠ "none" → stripLead "static:".data s.data = none →
      TerminfoResolution.tryFrom s =
        .error (s ++ " is not a valid terminfo resolution value")) ∧
    (∀ s : String, s ∉ (["default", "jemalloc", "mimalloc", "snmalloc", "rust"] : List String) →
      MemoryAllocatorBackend.tryFrom s =
        .error (s ++ " is not a valid memory allocator backend")) ∧
    (∀ s : String, s ∉ (["LC_CTYPE", "C"] : List String) →
      CoerceCLocale.tryFrom s = .error (s ++ " is not a valid C locale coercion value")) ∧
    (∀ s : String, s ∉ (["none", "warn", "raise"] : List String) →
      BytesWarning.tryFrom s = .error (s ++ " is not a valid bytes warning value")) ∧
    (∀ s : String, s ∉ (["always", "never", "default"] : List String) →
      CheckHashPycsMode.tryFrom s =
        .error (s ++ " is not a valid check hash pycs mode value")) ∧
    (∀ s : String,
      s ∉ (["not-set", "default", "debug", "malloc", "malloc-debug", "py-malloc",
        "py-malloc-debug"] : List String) →
      Allocator.tryFrom s = .error (s ++ " is not a valid allocator value")) ∧
    (∀ s : String, s ∉ (["none", "fork", "forkserver", "spawn", "auto"] : List String) →
      MultiprocessingStartMethod.tryFrom s =
        .error (s ++ " is not a valid multiprocessing start method")) := by
  refine ⟨?_, ?_, ?_, ?_, ?_, ?_, ?_, ?_⟩
  · intro s hs
    simp at hs
    obtain ⟨h1, h2⟩ := hs
    unfold PythonInterpreterProfile.tryFrom
    rw [if_neg h1, if_neg h2]
  · intro s h1 h2 h3
    unfold TerminfoResolution.tryFrom
    rw [if_neg h1, if_neg h2, h3]
  · intro s hs
    simp at hs
    obtain ⟨h1, h2, h3, h4, h5⟩ := hs
    unfold MemoryAllocatorBackend.tryFrom
    rw [if_neg h1, if_neg h2, if_neg h3, if_neg h4, if_neg h5]
  · intro s hs
    simp at hs
    obtain ⟨h1, h2⟩ := hs
    unfold CoerceCLocale.tryFrom
    rw [if_neg h1, if_neg h2]
  · intro s hs
    simp at hs
    obtain ⟨h1, h2, h3⟩ := hs
    unfold BytesWarning.tryFrom
    rw [if_neg h1, if_neg h2, if_neg h3]
  · intro s hs
    simp at hs
    obtain ⟨h1, h2, h3⟩ := hs
    unfold CheckHashPycsMode.tryFrom
    rw [if_neg h1, if_neg h2, if_neg h3]
  · intro s hs
    simp at hs
    obtain ⟨h1, h2, h3, h4, h5, h6, h7⟩ := hs
    unfold Allocator.tryFrom
    rw [if_neg h1, if_neg h2, if_neg h3, if_neg h4, if_neg h5, if_neg h6, if_neg h7]
  · intro s hs
    simp at hs
    obtain ⟨h1, h2, h3, h4, h5⟩ := hs
    unfold MultiprocessingStartMethod.tryFrom MultiprocessingStartMethod.fromStr
    rw [if_neg h1, if_neg h2, if_neg h3, if_neg h4, if_neg h5]

/-- Witness for claim C4: the rejected input `"bogus"` evaluated through
every enumeration's parser. -/
theorem claim_C4_total_rejection_witness :
    PythonInterpreterProfile.tryFrom "bogus" =
      .error "bogus is not a valid profile; use \x27isolated\x27 or \x27python\x27" ∧
    TerminfoResolution.tryFrom "bogus" =
      .error "bogus is not a valid terminfo resolution value" ∧
    MemoryAllocatorBackend.tryFrom "bogus" =
      .error "bogus is not a valid memory allocator backend" ∧
    CoerceCLocale.tryFrom "bogus" =
      .error "bogus is not a valid C locale coercion value" ∧
    BytesWarning.tryFrom "bogus" = .error "bogus is not a valid bytes warning value" ∧
    CheckHashPycsMode.tryFrom "bogus" =
      .error "bogus is not a valid check hash pycs mode value" ∧
    Allocator.tryFrom "bogus" = .error "bogus is not a valid allocator value" ∧
    MultiprocessingStartMethod.tryFrom "bogus" =
      .error "bogus is not a valid multiprocessing start method" :=
  ⟨claim_C4_total_rejection.1 "bogus" (by decide),
    claim_C4_total_rejection.2.1 "bogus" (by decide) (by decide) (by decide),
    claim_C4_total_rejection.2.2.1 "bogus" (by decide),
    claim_C4_total_rejection.2.2.2.1 "bogus" (by decide),
    claim_C4_total_rejection.2.2.2.2.1 "bogus" (by decide),
    claim_C4_total_rejection.2.2.2.2.2.1 "bogus" (by decide),
    claim_C4_total_rejection.2.2.2.2.2.2.1 "bogus" (by decide),
    claim_C4_total_rejection.2.2.2.2.2.2.2 "bogus" (by decide)⟩

/-- Claim C6: the memory-allocator-backend default is a pure function of
the target platform family alone, yielding the native `Default` backend on
the Windows family and `Jemalloc` on every other family; the only other
enumeration with a default, the interpreter profile, is the
platform-independent constant `Isolated`. -/
theorem claim_C6_platform_default :
    MemoryAllocatorBackend.defaultFor true = MemoryAllocatorBackend.Default ∧
    MemoryAllocatorBackend.defaultFor false = MemoryAllocatorBackend.Jemalloc ∧
    PythonInterpreterProfile.default = PythonInterpreterProfile.Isolated :=
  ⟨rfl, rfl, rfl⟩

/-- Counterexample to claim C7: the memory-allocator-backend parser rejects
`"bogus"` with a message that names the input but does not contain its
accepted token `"jemalloc"`, so the error does not list the complete token
set of that enumeration. -/
theorem claim_C7_counterexample :
    MemoryAllocatorBackend.tryFrom "bogus" =
      .error "bogus is not a valid memory allocator backend" ∧
    hasSub "jemalloc".data "bogus is not a valid memory allocator backend".data = false :=
  ⟨rfl, by decide⟩

/-- Claim C7 as amended: every enumeration's parse error carries the
offending raw input (the message is the input followed by a fixed
descriptive suffix), but only the profile enumeration's error additionally
lists its complete accepted token set; the other enumerations' messages
describe the expected kind without enumerating the tokens. -/
theorem claim_C7_error_contents :
    (∀ s e, PythonInterpreterProfile.tryFrom s = .error e →
      e = s ++ " is not a valid profile; use \x27isolated\x27 or \x27python\x27") ∧
    (∀ s e, TerminfoResolution.tryFrom s = .error e →
      e = s ++ " is not a valid terminfo resolution value") ∧
    (∀ s e, MemoryAllocatorBackend.tryFrom s = .error e →
      e = s ++ " is not a valid memory allocator backend") ∧
    (∀ s e, CoerceCLocale.tryFrom s = .error e →
      e = s ++ " is not a valid C locale coercion value") ∧
    (∀ s e, BytesWarning.tryFrom s = .error e →
      e = s ++ " is not a valid bytes warning value") ∧
    (∀ s e, CheckHashPycsMode.tryFrom s = .error e →
      e = s ++ " is not a valid check hash pycs mode value") ∧
    (∀ s e, Allocator.tryFrom s = .error e →
      e = s ++ " is not a valid allocator value") ∧
    (∀ s e, MultiprocessingStartMethod.tryFrom s = .error e →
      e = s ++ " is not a valid multiprocessing start method") ∧
    (∀ s e, PythonInterpreterProfile.tryFrom s = .error e →
      hasSub "isolated".data e.data = true ∧ hasSub "python".data e.data = true) := by
  refine ⟨profile_err, terminfo_err, memalloc_err, coerce_err, byteswarn_err,
    checkhash_err, alloc_err, mpstart_err, ?_⟩
  intro s e h
  have he := profile_err s e h
  subst he
  constructor
  · rw [String.data_append]
    exact hasSub_append _ _ (by decide) s.data
  · rw [String.data_append]
    exact hasSub_append _ _ (by decide) s.data

/-- Witness for claim C7 as amended: the error shapes and the profile
token-list property evaluated at the rejected input `"bogus"`. -/
theorem claim_C7_error_contents_witness :
    ("bogus is not a valid profile; use \x27isolated\x27 or \x27python\x27" : String) =
      "bogus" ++ " is not a valid profile; use \x27isolated\x27 or \x27python\x27" ∧
    ("bogus is not a valid terminfo resolution value" : String) =
      "bogus" ++ " is not a valid terminfo resolution value" ∧
    ("bogus is not a valid memory allocator backend" : String) =
      "bogus" ++ " is not a valid memory allocator backend" ∧
    ("bogus is not a valid C locale coercion value" : String) =
      "bogus" ++ " is not a valid C locale coercion value" ∧
    ("bogus is not a valid bytes warning value" : String) =
      "bogus" ++ " is not a valid bytes warning value" ∧
    ("bogus is not a valid check hash pycs mode value" : String) =
      "bogus" ++ " is not a valid check hash pycs mode value" ∧
    ("bogus is not a valid allocator value" : String) =
      "bogus" ++ " is not a valid allocator value" ∧
    ("bogus is not a valid multiprocessing start method" : String) =
      "bogus" ++ " is not a valid multiprocessing start method" ∧
    hasSub "isolated".data
      "bogus is not a valid profile; use \x27isolated\x27 or \x27python\x27".data = true ∧
    hasSub "python".data
      "bogus is not a valid profile; use \x27isolated\x27 or \x27python\x27".data = true :=
  ⟨claim_C7_error_contents.1 "bogus" _ rfl,
    claim_C7_error_contents.2.1 "bogus" _ rfl,
    claim_C7_error_contents.2.2.1 "bogus" _ rfl,
    claim_C7_error_contents.2.2.2.1 "bogus" _ rfl,
    claim_C7_error_contents.2.2.2.2.1 "bogus" _ rfl,
    claim_C7_error_contents.2.2.2.2.2.1 "bogus" _ rfl,
    claim_C7_error_contents.2.2.2.2.2.2.1 "bogus" _ rfl,
    claim_C7_error_contents.2.2.2.2.2.2.2.1 "bogus" _ rfl,
    (claim_C7_error_contents.2.2.2.2.2.2.2.2 "bogus" _ rfl).1,
    (claim_C7_error_contents.2.2.2.2.2.2.2.2 "bogus" _ rfl).2⟩

/-- Counterexample to claim C8: the serialization of the locale-coercion
variant `LCCtype` is `"LC_CTYPE"`, which contains uppercase letters outside
any terminfo payload, so not every variant of every enumeration serializes
without uppercase letters. -/
theorem claim_C8_counterexample :
    CoerceCLocale.toString CoerceCLocale.LCCtype = "LC_CTYPE" ∧
    hasUpper (CoerceCLocale.toString CoerceCLocale.LCCtype) = true :=
  ⟨rfl, by decide⟩

/-- Claim C8 as amended: every enumeration except `CoerceCLocale`
serializes each variant to a token without uppercase letters (for terminfo,
the fixed `"static:"` part is uppercase-free and any uppercase can come
only from the arbitrary payload); `CoerceCLocale` alone uses the uppercase
tokens `"LC_CTYPE"` and `"C"`. -/
theorem claim_C8_lowercase_tokens :
    (∀ v : PythonInterpreterProfile, hasUpper (PythonInterpreterProfile.toString v) = false) ∧
    (∀ v : MemoryAllocatorBackend, hasUpper (MemoryAllocatorBackend.toString v) = false) ∧
    (∀ v : BytesWarning, hasUpper (BytesWarning.toString v) = false) ∧
    (∀ v : CheckHashPycsMode, hasUpper (CheckHashPycsMode.toString v) = false) ∧
    (∀ v : Allocator, hasUpper (Allocator.toString v) = false) ∧
    (∀ v : MultiprocessingStartMethod, hasUpper (MultiprocessingStartMethod.toString v) = false) ∧
    hasUpper (TerminfoResolution.toString TerminfoResolution.Dynamic) = false ∧
    hasUpper (TerminfoResolution.toString TerminfoResolution.None) = false ∧
    (∀ s : String, TerminfoResolution.toString (TerminfoResolution.Static s) = "static:" ++ s ∧
      hasUpper "static:" = false) ∧
    CoerceCLocale.toString CoerceCLocale.LCCtype = "LC_CTYPE" ∧
    CoerceCLocale.toString CoerceCLocale.C = "C" :=
  ⟨by intro v; cases v <;> decide,
    by intro v; cases v <;> decide,
    by intro v; cases v <;> decide,
    by intro v; cases v <;> decide,
    by intro v; cases v <;> decide,
    by intro v; cases v <;> decide,
    by decide, by decide,
    by intro s; exact ⟨rfl, by decide⟩,
    rfl, rfl⟩

/-- Claim C9: bulk population of a configuration record from a structured
document validates every present enum token with the same per-field parsers
as the individual setters, and is atomic on failure: whenever any single
field carries an invalid token the whole operation reports an error and
returns the record exactly as it was before the operation. -/
theorem claim_C9_bulk_atomicity :
    (∀ (r : PythonInterpreterConfig) (d : ConfigDoc),
      ((bulkPopulate r d).2).isSome = true → (bulkPopulate r d).1 = r) ∧
    (∀ (r : PythonInterpreterConfig) (d : ConfigDoc) (s : String), d.profile = some s →
      (PythonInterpreterProfile.tryFrom s).isOk = false →
      ((bulkPopulate r d).2).isSome = true ∧ (bulkPopulate r d).1 = r) ∧
    (∀ (r : PythonInterpreterConfig) (d : ConfigDoc) (s : String), d.allocator = some s →
      (Allocator.tryFrom s).isOk = false →
      ((bulkPopulate r d).2).isSome = true ∧ (bulkPopulate r d).1 = r) ∧
    (∀ (r : PythonInterpreterConfig) (d : ConfigDoc) (s : String), d.coerce_c_locale = some s →
      (CoerceCLocale.tryFrom s).isOk = false →
      ((bulkPopulate r d).2).isSome = true ∧ (bulkPopulate r d).1 = r) ∧
    (∀ (r : PythonInterpreterConfig) (d : ConfigDoc) (s : String), d.bytes_warning = some s →
      (BytesWarning.tryFrom s).isOk = false →
      ((bulkPopulate r d).2).isSome = true ∧ (bulkPopulate r d).1 = r) ∧
    (∀ (r : PythonInterpreterConfig) (d : ConfigDoc) (s : String),
      d.check_hash_pycs_mode = some s →
      (CheckHashPycsMode.tryFrom s).isOk = false →
      ((bulkPopulate r d).2).isSome = true ∧ (bulkPopulate r d).1 = r) := by
  have parts_contra : ∀ {α : Type} {p : String → Except String α} {o : Option String}
      {s : String}, o = some s → (p s).isOk = false →
      (parseField p o).isOk = true → False := by
    intro α p o s hs hbad hok
    cases hpf : parseField p o with
    | error e => rw [hpf] at hok; simp [Except.toBool] at hok
    | ok v =>
        have htrue := parseField_ok p o v hpf s hs
        rw [hbad] at htrue
        exact Bool.noConfusion htrue
  have notok : ∀ {d : ConfigDoc}, (∀ u, parseDoc d = .ok u → False) →
      ¬(parseDoc d).isOk = true := by
    intro d hcon hok
    cases hp : parseDoc d with
    | error e => rw [hp] at hok; simp [Except.toBool] at hok
    | ok u => exact hcon u hp
  refine ⟨?_, ?_, ?_, ?_, ?_, ?_⟩
  · intro r d h
    cases hp : parseDoc d with
    | ok u => unfold bulkPopulate at h; rw [hp] at h; simp at h
    | error e => unfold bulkPopulate; rw [hp]
  · intro r d s hs hbad
    exact bulkPopulate_err_of_not_ok (notok fun u hp =>
      parts_contra hs hbad (parseDoc_ok_parts hp).1)
  · intro r d s hs hbad
    exact bulkPopulate_err_of_not_ok (notok fun u hp =>
      parts_contra hs hbad (parseDoc_ok_parts hp).2.1)
  · intro r d s hs hbad
    exact bulkPopulate_err_of_not_ok (notok fun u hp =>
      parts_contra hs hbad (parseDoc_ok_parts hp).2.2.1)
  · intro r d s hs hbad
    exact bulkPopulate_err_of_not_ok (notok fun u hp =>
      parts_contra hs hbad (parseDoc_ok_parts hp).2.2.2.1)
  · intro r d s hs hbad
    exact bulkPopulate_err_of_not_ok (notok fun u hp =>
      parts_contra hs hbad (parseDoc_ok_parts hp).2.2.2.2)

/-- Witness for claim C9: a document with one valid field (`profile =
"isolated"`) and one invalid enum token (`allocator = "bogus"`) fails the
bulk operation and leaves the default record untouched. -/
theorem claim_C9_bulk_atomicity_witness :
    ((bulkPopulate PythonInterpreterConfig.default
      { profile := some "isolated", allocator := some "bogus", coerce_c_locale := none,
        bytes_warning := none, check_hash_pycs_mode := none }).2).isSome = true ∧
    (bulkPopulate PythonInterpreterConfig.default
      { profile := some "isolated", allocator := some "bogus", coerce_c_locale := none,
        bytes_warning := none, check_hash_pycs_mode := none }).1 =
      PythonInterpreterConfig.default :=
  claim_C9_bulk_atomicity.2.2.1 PythonInterpreterConfig.default
    { profile := some "isolated", allocator := some "bogus", coerce_c_locale := none,
      bytes_warning := none, check_hash_pycs_mode := none } "bogus" rfl rfl

/-- Claim C10: the several string-parsing entry points of each enumeration
agree: the owned-string parser equals the borrowed-string parser on every
string, and the `FromStr` parser of the multiprocessing start method equals
its borrowed-string parser, so each enumeration has one parsing behavior
regardless of entry point. -/
theorem claim_C10_parse_agreement :
    (∀ s, PythonInterpreterProfile.tryFromString s = PythonInterpreterProfile.tryFrom s) ∧
    (∀ s, TerminfoResolution.tryFromString s = TerminfoResolution.tryFrom s) ∧
    (∀ s, MemoryAllocatorBackend.tryFromString s = MemoryAllocatorBackend.tryFrom s) ∧
    (∀ s, CoerceCLocale.tryFromString s = CoerceCLocale.tryFrom s) ∧
    (∀ s, BytesWarning.tryFromString s = BytesWarning.tryFrom s) ∧
    (∀ s, CheckHashPycsMode.tryFromString s = CheckHashPycsMode.tryFrom s) ∧
    (∀ s, Allocator.tryFromString s = Allocator.tryFrom s) ∧
    (∀ s, MultiprocessingStartMethod.tryFromString s = MultiprocessingStartMethod.tryFrom s) ∧
    (∀ s, MultiprocessingStartMethod.tryFrom s = MultiprocessingStartMethod.fromStr s) :=
  ⟨fun _ => rfl, fun _ => rfl, fun _ => rfl, fun _ => rfl, fun _ => rfl, fun _ => rfl,
    fun _ => rfl, fun _ => rfl, fun _ => rfl⟩
